import Mathlib

/-!
# AgriSense AI — verification of the inference request pipeline

Shallow embedding of the crop-recommendation backend
(`backend/app.py`, `backend/utils/validators.py`, `backend/utils/rainfall.py`).

Modelling conventions:
* Python floats are modelled as exact rationals (`ℚ`); every arithmetic step of
  the pipeline is mirrored on `ℚ`.
* A JSON value relevant to the pipeline is either a value convertible by
  Python's `float(·)` (carried as the rational it converts to) or a
  non-convertible value (carried as its Python `repr` text).
* A field that is missing from the JSON object and a field that is present with
  value `null` are modelled identically (as `Option.none`): every consumer in
  the source (`field not in data or data[field] is None`, `data.get(field)`)
  treats the two cases the same way.
* Exceptions (`float(...)` raising `ValueError`/`TypeError`, `dict[...]`
  raising `KeyError`) are modelled with `Option`: `none` is a raised exception,
  which the endpoint's catch-all turns into a 500 response.
* The external classifier and scaler are opaque collaborators; they are
  modelled as an arbitrary `Model` record of pure functions.
* `np.argsort` is modelled as a stable ascending argsort (ties resolved by
  ascending index), i.e. sorting the index list by the lexicographic key
  (value, index).
-/

namespace AgriSense

/-- A JSON value as seen by the pipeline: either convertible by Python
`float(·)` (modelled as the exact rational it converts to), or not convertible
(modelled as its Python `repr` text, which appears in error messages). -/
inductive Value where
  | num (x : ℚ)
  | nonNum (r : String)
deriving DecidableEq, Repr

/-- Python `float(v)`: succeeds exactly on convertible values.  `none` models a raised
`ValueError`/`TypeError`. -/
def Value.toFloat : Value → Option ℚ
  | .num x => some x
  | .nonNum _ => none

/-- The request JSON body restricted to the eight keys the pipeline reads.
`none` models "missing or null" (the source treats both identically). -/
structure SensorInput where
  N : Option Value
  P : Option Value
  K : Option Value
  ph : Option Value
  moisture : Option Value
  temperature : Option Value
  humidity : Option Value
  rainfall : Option Value
deriving DecidableEq, Repr, Inhabited

/-- Dictionary access `data.get(field)` / `data[field]` for the keys the source reads. -/
def SensorInput.get (d : SensorInput) : String → Option Value
  | "N" => d.N
  | "P" => d.P
  | "K" => d.K
  | "ph" => d.ph
  | "moisture" => d.moisture
  | "temperature" => d.temperature
  | "humidity" => d.humidity
  | "rainfall" => d.rainfall
  | _ => none

/-! ## Rendering of numbers in warning messages

The source interpolates Python values into f-strings.  The out-of-range value
has passed through `float(·)`, so it renders like a Python float (`"300.0"`,
`"6.5"`); the range bounds are integer literals from `REALISTIC_RANGES` and
render like Python ints (`"200"`, `"-10"`). -/

/-- Left-pad a digit string with zeros up to length `k`. -/
def zeroPad (k : ℕ) (s : String) : String :=
  String.mk (List.replicate (k - s.length) '0') ++ s

/-- Renders a rational the way Python's `str(·)` renders the corresponding
float, for rationals with a terminating decimal expansion (the only ones that
arise from sensor payloads): `90 ↦ "90.0"`, `13/2 ↦ "6.5"`, `-20 ↦ "-20.0"`. -/
def pyFloatStr (x : ℚ) : String :=
  match (List.range 17).find? (fun k => (x * 10 ^ k).den == 1) with
  | some 0 => toString x.num ++ ".0"
  | some k =>
      let scaled := (x * 10 ^ k).num
      let sign := if scaled < 0 then "-" else ""
      let a := scaled.natAbs
      sign ++ toString (a / 10 ^ k) ++ "." ++ zeroPad k (toString (a % 10 ^ k))
  | none => toString x

/-! ## `utils/validators.py` -/

/-- Constant `REQUIRED_FIELDS` — the fields `validate_input` demands (rainfall is
optional). -/
def REQUIRED_FIELDS : List String :=
  ["N", "P", "K", "ph", "moisture", "temperature", "humidity"]

/-- The contribution of one required field to `validate_input`'s error list:
one "Missing required field" error for a missing/null field, one "must be a
number" error (carrying the Python `repr` of the value) for a present
non-convertible field, nothing for a convertible field. -/
def validateField (d : SensorInput) (field : String) : List String :=
  match d.get field with
  | none => ["Missing required field: '" ++ field ++ "'."]
  | some (Value.num _) => []
  | some (Value.nonNum r) =>
      ["Field '" ++ field ++ "' must be a number, got: " ++ r ++ "."]

/-- Function `validate_input(data)` — returns all collected errors; `none` input models
a request body that was absent or not valid JSON. -/
def validate_input : Option SensorInput → List String
  | none => ["Request body is empty or not valid JSON."]
  | some d => REQUIRED_FIELDS.flatMap (validateField d)

/-- One entry of `REALISTIC_RANGES`: field name, min, max, label. -/
abbrev RangeEntry := String × ℤ × ℤ × String

/-- Constant `REALISTIC_RANGES` — field → (min, max, human-readable label), in the
source's (insertion-ordered dict) iteration order. -/
def REALISTIC_RANGES : List RangeEntry :=
  [("N", 0, 200, "Nitrogen (N)"),
   ("P", 0, 200, "Phosphorus (P)"),
   ("K", 0, 300, "Potassium (K)"),
   ("temperature", -10, 60, "Temperature"),
   ("humidity", 0, 100, "Humidity"),
   ("ph", 0, 14, "pH"),
   ("rainfall", 0, 500, "Rainfall"),
   ("moisture", 0, 100, "Soil Moisture")]

/-- Constant `CONFIDENCE_PENALTY_PER_WARNING` = 0.10. -/
def CONFIDENCE_PENALTY_PER_WARNING : ℚ := 1 / 10

/-- The below-minimum warning string of `check_realistic_ranges`. -/
def belowWarning (label : String) (value : ℚ) (low : ℤ) : String :=
  "Input " ++ label ++ " (" ++ pyFloatStr value ++
    ") is below the expected minimum (" ++ toString low ++ ")."

/-- The above-maximum warning string of `check_realistic_ranges`. -/
def aboveWarning (label : String) (value : ℚ) (high : ℤ) : String :=
  "Input " ++ label ++ " (" ++ pyFloatStr value ++
    ") is above the expected maximum (" ++ toString high ++ ")."

/-- The `for field, (low, high, label) in REALISTIC_RANGES.items()` loop of
`check_realistic_ranges`, accumulating `warnings` and `total_penalty`.
`none` models the `float(value)` call raising on a present non-convertible
value. -/
def rangeLoop (d : SensorInput) :
    List RangeEntry → List String → ℚ → Option (List String × ℚ)
  | [], warnings, total_penalty => some (warnings, total_penalty)
  | (field, low, high, label) :: rest, warnings, total_penalty =>
    match d.get field with
    | none => rangeLoop d rest warnings total_penalty
    | some (Value.nonNum _) => none
    | some (Value.num value) =>
      if value < (low : ℚ) then
        rangeLoop d rest (warnings ++ [belowWarning label value low])
          (total_penalty + CONFIDENCE_PENALTY_PER_WARNING)
      else if value > (high : ℚ) then
        rangeLoop d rest (warnings ++ [aboveWarning label value high])
          (total_penalty + CONFIDENCE_PENALTY_PER_WARNING)
      else
        rangeLoop d rest warnings total_penalty

/-- Function `check_realistic_ranges(data)` — warnings plus the total confidence
penalty, capped at 0.50.  `none` models an escaping exception. -/
def check_realistic_ranges (d : SensorInput) : Option (List String × ℚ) :=
  (rangeLoop d REALISTIC_RANGES [] 0).map (fun r => (r.1, min r.2 (1 / 2)))

/-! ## `utils/rainfall.py`

`fetch_rainfall_from_weather_api` draws a random mock value; its outcome
(`some` value on success, `none` on failure) is threaded through the embedding
as an oracle parameter `apiResult`. -/

/-- Constant `HISTORICAL_RAINFALL_AVERAGES` — mock historical lookup table. -/
def HISTORICAL_RAINFALL_AVERAGES : List (String × ℚ) :=
  [("default", 120), ("january", 15), ("february", 20), ("march", 30),
   ("april", 45), ("may", 65), ("june", 165), ("july", 280), ("august", 260),
   ("september", 195), ("october", 110), ("november", 40), ("december", 15)]

/-- Function `fetch_rainfall_from_weather_api()` — placeholder weather-API call whose
outcome is supplied by the oracle (`some` rainfall on success, `none` on
failure). -/
def fetch_rainfall_from_weather_api (apiResult : Option ℚ) : Option ℚ :=
  apiResult

/-- Function `get_default_rainfall()` — Tier 1: the weather-API value when the call
succeeds; Tier 2: the `"default"` entry of the historical table.  (The `0`
default of `getD` is unreachable: the `"default"` key is present.) -/
def get_default_rainfall (apiResult : Option ℚ) : ℚ :=
  match fetch_rainfall_from_weather_api apiResult with
  | some api_rainfall => api_rainfall
  | none => (HISTORICAL_RAINFALL_AVERAGES.lookup "default").getD 0

/-! ## `app.py` — the `/api/recommend` pipeline -/

/-- Constant `FEATURE_ORDER` — the order the model was trained with. -/
def FEATURE_ORDER : List String :=
  ["N", "P", "K", "temperature", "humidity", "ph", "rainfall"]

/-- Step 4 of `recommend_crop`: the feature vector
`[float(data[f]) for f in N,P,K,temperature,humidity,ph,rainfall]`.
`none` models a `KeyError`/`ValueError` escaping to the catch-all. -/
def featureVector (d : SensorInput) : Option (List ℚ) := do
  let n ← (d.get "N").bind Value.toFloat
  let p ← (d.get "P").bind Value.toFloat
  let k ← (d.get "K").bind Value.toFloat
  let t ← (d.get "temperature").bind Value.toFloat
  let h ← (d.get "humidity").bind Value.toFloat
  let phv ← (d.get "ph").bind Value.toFloat
  let r ← (d.get "rainfall").bind Value.toFloat
  return [n, p, k, t, h, phv, r]

/-- The opaque inference collaborators: `scaler.transform`,
`model.predict_proba` and `model.classes_`. -/
structure Model where
  classes : List String
  transform : List ℚ → List ℚ
  predict_proba : List ℚ → List ℚ

/-- The ascending comparison `np.argsort` sorts indices by: the lexicographic
key (probability, index), so that equal probabilities keep ascending index
order (stability). -/
def argsortLE (p : List ℚ) (i j : ℕ) : Prop :=
  p.getD i 0 < p.getD j 0 ∨ (p.getD i 0 = p.getD j 0 ∧ i ≤ j)

instance (p : List ℚ) : DecidableRel (argsortLE p) := fun i j => by
  unfold argsortLE; infer_instance

instance (p : List ℚ) : IsTotal ℕ (argsortLE p) where
  total i j := by
    rcases lt_trichotomy (p.getD i 0) (p.getD j 0) with h | h | h
    · exact Or.inl (Or.inl h)
    · rcases Nat.le_total i j with hij | hij
      · exact Or.inl (Or.inr ⟨h, hij⟩)
      · exact Or.inr (Or.inr ⟨h.symm, hij⟩)
    · exact Or.inr (Or.inl h)

instance (p : List ℚ) : IsTrans ℕ (argsortLE p) where
  trans i j k hij hjk := by
    rcases hij with h1 | ⟨e1, l1⟩
    · rcases hjk with h2 | ⟨e2, _⟩
      · exact Or.inl (h1.trans h2)
      · exact Or.inl (e2 ▸ h1)
    · rcases hjk with h2 | ⟨e2, l2⟩
      · exact Or.inl (e1 ▸ h2)
      · exact Or.inr ⟨e1.trans e2, l1.trans l2⟩

/-- Embedding of `np.argsort(probabilities)` — the stable ascending argsort (see module
docstring). -/
def argsort (p : List ℚ) : List ℕ :=
  List.insertionSort (argsortLE p) (List.range p.length)

/-- Embedding of `np.argsort(probabilities)[::-1][:3]` — top-3 indices by descending
probability. -/
def topIndices (p : List ℚ) : List ℕ :=
  (argsort p).reverse.take 3

/-- One entry of the response's `recommendations` array. -/
structure Recommendation where
  crop : String
  confidence : String
deriving DecidableEq, Repr

/-- Round half to even, as Python's float formatting does. -/
def roundHalfEven (x : ℚ) : ℤ :=
  let f := ⌊x⌋
  let frac := x - f
  if frac < 1 / 2 then f
  else if frac > 1 / 2 then f + 1
  else if f % 2 = 0 then f else f + 1

/-- Formatting `f"{x * 100:.0f}%"` — the confidence percentage string. -/
def fmtPct (x : ℚ) : String :=
  toString (roundHalfEven (x * 100)) ++ "%"

/-- The body of the `for idx in top_indices` loop: penalty-adjusted,
floored, formatted recommendation for class index `idx`. -/
def mkRecommendation (probabilities : List ℚ) (class_labels : List String)
    (confidence_penalty : ℚ) (idx : ℕ) : Recommendation :=
  let raw_confidence := probabilities.getD idx 0
  let adjusted_confidence := max (raw_confidence - confidence_penalty) (1 / 100)
  { crop := class_labels.getD idx "", confidence := fmtPct adjusted_confidence }

/-- Step 6 of `recommend_crop`: ranking, penalty application and
formatting of the top-3 recommendations. -/
def assembleRecommendations (probabilities : List ℚ) (class_labels : List String)
    (confidence_penalty : ℚ) : List Recommendation :=
  (topIndices probabilities).map
    (mkRecommendation probabilities class_labels confidence_penalty)

/-- The `metadata` object of a success response. -/
structure Metadata where
  rainfall_source : String
  rainfall_value_used : ℚ
deriving DecidableEq, Repr

/-- The JSON body of a 200 response. -/
structure SuccessBody where
  recommendations : List Recommendation
  warnings : Option (List String)
  metadata : Metadata
deriving DecidableEq, Repr

/-- The observable outcomes of `POST /api/recommend` (for a loaded model):
200 success, 400 validation failure, 500 catch-all. -/
inductive ApiResponse where
  | success (body : SuccessBody)
  | validationError (errors : List String)
  | unexpectedError (message : String)
deriving DecidableEq, Repr

/-- Embedding of `warnings if warnings else None` — an empty warning list is reported as
JSON `null`. -/
def responseWarnings (warnings : List String) : Option (List String) :=
  if warnings.isEmpty then none else some warnings

/-- Step 2 of `recommend_crop`: if `data.get("rainfall") is None`, fill in
`get_default_rainfall()` and tag the source `"estimated (fallback)"`,
otherwise keep the data and tag `"sensor"`. -/
def fillRainfall (apiResult : Option ℚ) (d : SensorInput) :
    SensorInput × String :=
  match d.rainfall with
  | none =>
      ({ d with rainfall := some (Value.num (get_default_rainfall apiResult)) },
       "estimated (fallback)")
  | some _ => (d, "sensor")

/-- The message of the catch-all 500 response (`str(exc)` elided). -/
def UNEXPECTED_ERROR_MESSAGE : String := "An unexpected error occurred."

/-- Handler `recommend_crop()` — the POST `/api/recommend` handler for a loaded model:
validation (400 on failure), rainfall fallback, range check, feature vector,
scaling, prediction, assembly; any in-pipeline exception yields the 500
catch-all. -/
def recommend_crop (m : Model) (apiResult : Option ℚ)
    (body : Option SensorInput) : ApiResponse :=
  let errors := validate_input body
  if errors.isEmpty then
    -- `errors = []` forces `body = some d`, so the default is never used
    let d0 := body.getD default
    let filled := fillRainfall apiResult d0
    let d := filled.1
    let rainfall_source := filled.2
    match check_realistic_ranges d with
    | none => ApiResponse.unexpectedError UNEXPECTED_ERROR_MESSAGE
    | some (warnings, confidence_penalty) =>
      match featureVector d with
      | none => ApiResponse.unexpectedError UNEXPECTED_ERROR_MESSAGE
      | some feature_values =>
        let scaled_features := m.transform feature_values
        let probabilities := m.predict_proba scaled_features
        let recommendations :=
          assembleRecommendations probabilities m.classes confidence_penalty
        match (d.get "rainfall").bind Value.toFloat with
        | none => ApiResponse.unexpectedError UNEXPECTED_ERROR_MESSAGE
        | some rv =>
            ApiResponse.success
              { recommendations := recommendations,
                warnings := responseWarnings warnings,
                metadata :=
                  { rainfall_source := rainfall_source,
                    rainfall_value_used := rv } }
  else ApiResponse.validationError errors

/-! ## Analysis definitions (spec-side characterizations) -/

/-- Is an optional value present and convertible by `float(·)`? -/
def isNumeric : Option Value → Bool
  | some (Value.num _) => true
  | _ => false

/-- Does `d` hold a present but non-convertible value at the entry's field
(which would make `float(value)` raise inside `check_realistic_ranges`)? -/
def presentNonNumeric (d : SensorInput) (e : RangeEntry) : Prop :=
  ∃ s, d.get e.1 = some (Value.nonNum s)

/-- Is the entry's field present and strictly outside its `[min, max]`
range? -/
def violatesEntry (d : SensorInput) : RangeEntry → Bool
  | (field, low, high, _) =>
    match d.get field with
    | some (Value.num x) => decide (x < (low : ℚ)) || decide ((high : ℚ) < x)
    | _ => false

/-- The warning `check_realistic_ranges` emits for a violated entry. -/
def warningFor (d : SensorInput) : RangeEntry → String
  | (field, low, high, label) =>
    match d.get field with
    | some (Value.num x) =>
        if x < (low : ℚ) then belowWarning label x low
        else aboveWarning label x high
    | _ => ""

/-- Number of ranged fields that are present and strictly out of range. -/
def violationCount (d : SensorInput) : ℕ :=
  (REALISTIC_RANGES.filter (violatesEntry d)).length

/-! ## Concrete witness data

`sampleReading` is the success scenario of the spec (§8): all fields in range,
rainfall omitted. -/

/-- All-in-range reading, rainfall omitted. -/
def sampleReading : SensorInput :=
  { N := some (.num 90), P := some (.num 42), K := some (.num 43),
    ph := some (.num (13 / 2)), moisture := some (.num 70),
    temperature := some (.num 25), humidity := some (.num 80),
    rainfall := none }

/-- Same reading with a sensor-supplied rainfall. -/
def sensorReading : SensorInput :=
  { sampleReading with rainfall := some (.num 100) }

/-- Two out-of-range fields: N above max, temperature below min. -/
def outOfRangeReading : SensorInput :=
  { sampleReading with
    N := some (.num 300)
    temperature := some (.num (-20)) }

/-- Humidity above its maximum, rainfall supplied. -/
def tooHumidReading : SensorInput :=
  { sensorReading with humidity := some (.num 150) }

/-- Valid required fields, non-numeric optional rainfall. -/
def badRainfallReading : SensorInput :=
  { sampleReading with rainfall := some (.nonNum "'abc'") }

/-- A concrete three-class model for witnesses. -/
def sampleModel : Model :=
  { classes := ["rice", "maize", "kidneybeans"],
    transform := id,
    predict_proba := fun _ => [1 / 2, 1 / 3, 1 / 6] }

/-! ## Helper lemmas -/

theorem get_N (d : SensorInput) : d.get "N" = d.N := rfl

theorem get_P (d : SensorInput) : d.get "P" = d.P := rfl

theorem get_K (d : SensorInput) : d.get "K" = d.K := rfl

theorem get_ph (d : SensorInput) : d.get "ph" = d.ph := rfl

theorem get_moisture (d : SensorInput) : d.get "moisture" = d.moisture := rfl

theorem get_temperature (d : SensorInput) : d.get "temperature" = d.temperature := rfl

theorem get_humidity (d : SensorInput) : d.get "humidity" = d.humidity := rfl

theorem get_rainfall (d : SensorInput) : d.get "rainfall" = d.rainfall := rfl

theorem validateField_eq_nil (d : SensorInput) (f : String) :
    validateField d f = [] ↔ ∃ x, d.get f = some (Value.num x) := by
  cases h : d.get f with
  | none => simp [validateField, h]
  | some v => cases v <;> simp [validateField, h]

theorem validateField_length (d : SensorInput) (f : String) :
    (validateField d f).length = if isNumeric (d.get f) then 0 else 1 := by
  cases h : d.get f with
  | none => simp [validateField, isNumeric, h]
  | some v => cases v <;> simp [validateField, isNumeric, h]

theorem flatMap_validateField_length (d : SensorInput) (L : List String) :
    (L.flatMap (validateField d)).length =
      (L.filter (fun f => !isNumeric (d.get f))).length := by
  induction L with
  | nil => simp
  | cons f L ih =>
      rw [List.flatMap_cons, List.length_append, validateField_length,
        List.filter_cons, ih]
      cases h : isNumeric (d.get f) <;> simp [h, Nat.add_comm]

/-! ## Claim C4 — `validate_input` characterization -/

/-- C4: `validate_input` returns an empty error list iff all seven required
fields (N, P, K, ph, moisture, temperature, humidity) are present, non-null
and convertible to a number; otherwise it collects one error per offending
field — `Missing required field: 'X'.` for a missing/null field and a
"must be a number" error for a present non-convertible value. -/
theorem validate_input_characterization (d : SensorInput) :
    (validate_input (some d) = [] ↔
      ∀ f ∈ REQUIRED_FIELDS, ∃ x, d.get f = some (Value.num x)) ∧
    (∀ f ∈ REQUIRED_FIELDS, d.get f = none →
      ("Missing required field: '" ++ f ++ "'.") ∈ validate_input (some d)) ∧
    (∀ f ∈ REQUIRED_FIELDS, ∀ r, d.get f = some (Value.nonNum r) →
      ("Field '" ++ f ++ "' must be a number, got: " ++ r ++ ".") ∈
        validate_input (some d)) ∧
    (validate_input (some d)).length =
      (REQUIRED_FIELDS.filter (fun f => !isNumeric (d.get f))).length := by
  refine ⟨?_, ?_, ?_, ?_⟩
  · rw [show validate_input (some d) = REQUIRED_FIELDS.flatMap (validateField d)
      from rfl, List.flatMap_eq_nil_iff]
    constructor
    · intro h f hf
      exact (validateField_eq_nil d f).mp (h f hf)
    · intro h f hf
      exact (validateField_eq_nil d f).mpr (h f hf)
  · intro f hf h
    exact List.mem_flatMap.mpr ⟨f, hf, by simp [validateField, h]⟩
  · intro f hf r h
    exact List.mem_flatMap.mpr ⟨f, hf, by simp [validateField, h]⟩
  · exact flatMap_validateField_length d REQUIRED_FIELDS

/-! ## Range-check analysis -/

theorem rangeLoop_cons_none (d : SensorInput) (field : String) (low high : ℤ)
    (label : String) (L : List RangeEntry) (w : List String) (p : ℚ)
    (h : d.get field = none) :
    rangeLoop d ((field, low, high, label) :: L) w p = rangeLoop d L w p := by
  rw [rangeLoop, h]

theorem rangeLoop_cons_nonNum (d : SensorInput) (field : String) (low high : ℤ)
    (label : String) (L : List RangeEntry) (w : List String) (p : ℚ) (s : String)
    (h : d.get field = some (Value.nonNum s)) :
    rangeLoop d ((field, low, high, label) :: L) w p = none := by
  rw [rangeLoop, h]

theorem rangeLoop_cons_num (d : SensorInput) (field : String) (low high : ℤ)
    (label : String) (L : List RangeEntry) (w : List String) (p : ℚ) (x : ℚ)
    (h : d.get field = some (Value.num x)) :
    rangeLoop d ((field, low, high, label) :: L) w p =
      if x < (low : ℚ) then
        rangeLoop d L (w ++ [belowWarning label x low])
          (p + CONFIDENCE_PENALTY_PER_WARNING)
      else if x > (high : ℚ) then
        rangeLoop d L (w ++ [aboveWarning label x high])
          (p + CONFIDENCE_PENALTY_PER_WARNING)
      else rangeLoop d L w p := by
  rw [rangeLoop, h]

theorem rangeLoop_eq_none_iff (d : SensorInput) (L : List RangeEntry) :
    ∀ (w : List String) (p : ℚ),
      rangeLoop d L w p = none ↔ ∃ e ∈ L, presentNonNumeric d e := by
  induction L with
  | nil => intro w p; simp [rangeLoop]
  | cons e L ih =>
      intro w p
      obtain ⟨field, low, high, label⟩ := e
      have tailIff : ∀ (w' : List String) (p' : ℚ),
          (∀ s, d.get field ≠ some (Value.nonNum s)) →
          (rangeLoop d L w' p' = none ↔
            ∃ e ∈ (field, low, high, label) :: L, presentNonNumeric d e) := by
        intro w' p' hok
        rw [ih]
        simp only [List.mem_cons]
        constructor
        · rintro ⟨e, he, hn⟩; exact ⟨e, Or.inr he, hn⟩
        · rintro ⟨e, he | he, hn⟩
          · obtain ⟨s, hs⟩ := hn
            rw [he] at hs
            exact absurd hs (hok s)
          · exact ⟨e, he, hn⟩
      cases h : d.get field with
      | none =>
          rw [rangeLoop_cons_none d field low high label L w p h]
          exact tailIff w p (fun s hs => by rw [h] at hs; cases hs)
      | some v =>
          cases v with
          | nonNum s =>
              rw [rangeLoop_cons_nonNum d field low high label L w p s h]
              simp only [List.mem_cons, true_iff]
              exact ⟨(field, low, high, label), Or.inl rfl, s, h⟩
          | num x =>
              have hok : ∀ s, d.get field ≠ some (Value.nonNum s) :=
                fun s hs => by rw [h] at hs; cases hs
              rw [rangeLoop_cons_num d field low high label L w p x h]
              by_cases h1 : x < (low : ℚ)
              · rw [if_pos h1]; exact tailIff _ _ hok
              · rw [if_neg h1]
                by_cases h2 : x > (high : ℚ)
                · rw [if_pos h2]; exact tailIff _ _ hok
                · rw [if_neg h2]; exact tailIff _ _ hok

theorem rangeLoop_eq_of_clean (d : SensorInput) (L : List RangeEntry)
    (hclean : ∀ e ∈ L, ¬ presentNonNumeric d e) :
    ∀ (w : List String) (p : ℚ),
      rangeLoop d L w p =
        some (w ++ (L.filter (violatesEntry d)).map (warningFor d),
          p + ((L.filter (violatesEntry d)).length : ℚ) *
            CONFIDENCE_PENALTY_PER_WARNING) := by
  induction L with
  | nil => intro w p; simp [rangeLoop]
  | cons e L ih =>
      intro w p
      obtain ⟨field, low, high, label⟩ := e
      have hcleanL : ∀ e ∈ L, ¬ presentNonNumeric d e :=
        fun e he => hclean e (List.mem_cons_of_mem _ he)
      cases h : d.get field with
      | none =>
          rw [rangeLoop_cons_none d field low high label L w p h, ih hcleanL]
          have hv : violatesEntry d (field, low, high, label) = false := by
            simp [violatesEntry, h]
          rw [List.filter_cons_of_neg (by simp [hv])]
      | some v =>
          cases v with
          | nonNum s =>
              exact absurd ⟨s, h⟩ (hclean _ (List.mem_cons_self _ _))
          | num x =>
              rw [rangeLoop_cons_num d field low high label L w p x h]
              by_cases h1 : x < (low : ℚ)
              · rw [if_pos h1, ih hcleanL]
                have hv : violatesEntry d (field, low, high, label) = true := by
                  simp [violatesEntry, h, h1]
                have hw : warningFor d (field, low, high, label) =
                    belowWarning label x low := by
                  simp [warningFor, h, h1]
                rw [List.filter_cons_of_pos hv]
                simp only [List.map_cons, hw, List.length_cons,
                  List.append_assoc, List.singleton_append, Option.some.injEq,
                  Prod.mk.injEq]
                refine ⟨trivial, ?_⟩
                push_cast
                ring
              · rw [if_neg h1]
                by_cases h2 : x > (high : ℚ)
                · rw [if_pos h2, ih hcleanL]
                  have hv : violatesEntry d (field, low, high, label) = true := by
                    simp only [violatesEntry, h, Bool.or_eq_true, decide_eq_true_eq]
                    right; exact h2
                  have hw : warningFor d (field, low, high, label) =
                      aboveWarning label x high := by
                    simp [warningFor, h, h1]
                  rw [List.filter_cons_of_pos hv]
                  simp only [List.map_cons, hw, List.length_cons,
                    List.append_assoc, List.singleton_append, Option.some.injEq,
                    Prod.mk.injEq]
                  refine ⟨trivial, ?_⟩
                  push_cast
                  ring
                · rw [if_neg h2, ih hcleanL]
                  have hv : violatesEntry d (field, low, high, label) = false := by
                    simp only [violatesEntry, h, Bool.or_eq_false_iff,
                      decide_eq_false_iff_not]
                    exact ⟨h1, h2⟩
                  rw [List.filter_cons_of_neg (by simp [hv])]

theorem check_realistic_ranges_some_elim (d : SensorInput) (w : List String)
    (p : ℚ) (h : check_realistic_ranges d = some (w, p)) :
    w = (REALISTIC_RANGES.filter (violatesEntry d)).map (warningFor d) ∧
    p = min (((REALISTIC_RANGES.filter (violatesEntry d)).length : ℚ) *
      CONFIDENCE_PENALTY_PER_WARNING) (1 / 2) := by
  have hne : rangeLoop d REALISTIC_RANGES [] 0 ≠ none := by
    intro hn
    rw [check_realistic_ranges, hn] at h
    cases h
  have hclean : ∀ e ∈ REALISTIC_RANGES, ¬ presentNonNumeric d e :=
    fun e he hn =>
      hne ((rangeLoop_eq_none_iff d REALISTIC_RANGES [] 0).mpr ⟨e, he, hn⟩)
  have heq := rangeLoop_eq_of_clean d REALISTIC_RANGES hclean [] 0
  rw [check_realistic_ranges, heq] at h
  simp only [Option.map_some', Option.some.injEq, Prod.mk.injEq,
    List.nil_append, zero_add] at h
  exact ⟨h.1.symm, h.2.symm⟩

/-- If the entry's field holds a numeric value inside `[min, max]` (bounds
included) or is absent, the entry is not counted as a violation. -/
theorem violatesEntry_eq_true_iff (d : SensorInput) (e : RangeEntry) :
    violatesEntry d e = true ↔
      ∃ x, d.get e.1 = some (Value.num x) ∧
        (x < (e.2.1 : ℚ) ∨ (e.2.2.1 : ℚ) < x) := by
  obtain ⟨field, low, high, label⟩ := e
  cases h : d.get field with
  | none => simp [violatesEntry, h]
  | some v => cases v <;> simp [violatesEntry, h]

/-! ## Claim C1 — total penalty formula -/

/-- C1: whenever `check_realistic_ranges` completes, its total confidence
penalty equals `min(0.10 × violationCount, 0.50)`, where `violationCount`
counts the ranged fields whose value is present and strictly outside its
`[min, max]` range. -/
theorem check_realistic_ranges_penalty (d : SensorInput) (w : List String)
    (p : ℚ) (h : check_realistic_ranges d = some (w, p)) :
    p = min ((violationCount d : ℚ) * (1 / 10)) (1 / 2) := by
  rw [(check_realistic_ranges_some_elim d w p h).2]
  rw [violationCount, CONFIDENCE_PENALTY_PER_WARNING]

/-! ## Claim C9 — warnings characterization -/

/-- C9: whenever `check_realistic_ranges` completes, the warnings list has
exactly one warning per ranged field that is present and strictly outside its
`[min, max]` range (a value equal to a bound yields none), each warning naming
the field label, the offending value and the violated bound; and an empty
warnings list is reported as `null` (`none`) in the response. -/
theorem check_realistic_ranges_warnings (d : SensorInput) (w : List String)
    (p : ℚ) (h : check_realistic_ranges d = some (w, p)) :
    w = (REALISTIC_RANGES.filter (violatesEntry d)).map (warningFor d) ∧
    (∀ e : RangeEntry, violatesEntry d e = true ↔
      ∃ x, d.get e.1 = some (Value.num x) ∧
        (x < (e.2.1 : ℚ) ∨ (e.2.2.1 : ℚ) < x)) ∧
    (∀ field low high label x, d.get field = some (Value.num x) →
      warningFor d (field, low, high, label) =
        if x < (low : ℚ) then belowWarning label x low
        else aboveWarning label x high) ∧
    (responseWarnings w = none ↔ w = []) := by
  refine ⟨(check_realistic_ranges_some_elim d w p h).1, violatesEntry_eq_true_iff d,
    ?_, ?_⟩
  · intro field low high label x hx
    simp [warningFor, hx]
  · rw [responseWarnings]
    cases w with
    | nil => simp
    | cons a l => simp

/-! ## Claim C6 — rainfall fallback chain -/

/-- C6: `get_default_rainfall` is total (never fails): it returns the Tier-1
weather-API value whenever that lookup returns one, and the fixed historical
constant 120.0 whenever the lookup fails. -/
theorem get_default_rainfall_spec :
    (∀ x : ℚ, get_default_rainfall (some x) = x) ∧
    get_default_rainfall none = 120 :=
  ⟨fun _ => rfl, rfl⟩

/-! ## Claim C7 — number of recommendations -/

/-- C7: the number of returned recommendations is `min(3, numberOfClasses)`:
exactly 3 when the probability vector has ≥ 3 entries, all of them when it has
fewer. -/
theorem recommendations_length (p : List ℚ) (labels : List String) (pen : ℚ) :
    (assembleRecommendations p labels pen).length = min 3 p.length := by
  rw [assembleRecommendations, List.length_map, topIndices, List.length_take,
    List.length_reverse, argsort,
    (List.perm_insertionSort (argsortLE p) (List.range p.length)).length_eq,
    List.length_range]

/-! ## Claim C2 — confidence formula -/

/-- C2: every returned recommendation's confidence is
`max(rawProbability − penalty, 0.01)` formatted as an integer percentage
string; the floor keeps the reported fraction at least 0.01, hence positive. -/
theorem confidence_formula (p : List ℚ) (labels : List String) (pen : ℚ)
    (r : Recommendation) (hr : r ∈ assembleRecommendations p labels pen) :
    ∃ i ∈ topIndices p,
      r = mkRecommendation p labels pen i ∧
      r.confidence = fmtPct (max (p.getD i 0 - pen) (1 / 100)) ∧
      (1 / 100 : ℚ) ≤ max (p.getD i 0 - pen) (1 / 100) := by
  obtain ⟨i, hi, hk⟩ := List.mem_map.mp hr
  exact ⟨i, hi, hk.symm, by rw [← hk]; rfl, le_max_right _ _⟩

/-! ## Claim C3 — ranking order -/

/-- C3, counterexample: with two classes of equal probability, the code
(`argsort` ascending, then reversed) lists the later class first — the
opposite of the claimed "natural class ordering" for ties. -/
theorem tie_order_counterexample :
    assembleRecommendations [1 / 2, 1 / 2] ["a", "b"] 0 =
      [⟨"b", "50%"⟩, ⟨"a", "50%"⟩] ∧
    ([⟨"b", "50%"⟩, ⟨"a", "50%"⟩] : List Recommendation) ≠
      [⟨"a", "50%"⟩, ⟨"b", "50%"⟩] := by
  constructor
  · with_unfolding_all rfl
  · decide

/-- C3, amended: recommendations are the top-3 indices ordered by raw
probability descending, but classes with equal probability appear in the
*reverse* of the Inference Engine's natural class ordering (the ascending
stable argsort is reversed, which flips the order of ties). -/
theorem ranking_descending (p : List ℚ) (labels : List String) (pen : ℚ) :
    assembleRecommendations p labels pen =
      (topIndices p).map (mkRecommendation p labels pen) ∧
    List.Pairwise (fun i j => p.getD j 0 < p.getD i 0 ∨
      (p.getD i 0 = p.getD j 0 ∧ j < i)) (topIndices p) := by
  refine ⟨rfl, ?_⟩
  have hsorted : List.Pairwise (argsortLE p) (argsort p) :=
    List.sorted_insertionSort (argsortLE p) (List.range p.length)
  have hnodup : (argsort p).Nodup :=
    ((List.perm_insertionSort (argsortLE p) (List.range p.length)).nodup_iff).mpr
      (List.nodup_range _)
  have hstrict : List.Pairwise (fun i j => p.getD i 0 < p.getD j 0 ∨
      (p.getD i 0 = p.getD j 0 ∧ i < j)) (argsort p) := by
    refine (hsorted.and hnodup).imp ?_
    rintro i j ⟨hle, hne⟩
    rcases hle with hlt | ⟨heq, hle⟩
    · exact Or.inl hlt
    · exact Or.inr ⟨heq, lt_of_le_of_ne hle hne⟩
  have hrev : List.Pairwise (fun i j => p.getD j 0 < p.getD i 0 ∨
      (p.getD j 0 = p.getD i 0 ∧ j < i)) (argsort p).reverse :=
    List.pairwise_reverse.mpr hstrict
  rw [topIndices]
  refine List.Pairwise.sublist (List.take_sublist 3 _) (hrev.imp ?_)
  rintro i j (h | ⟨heq, hlt⟩)
  · exact Or.inl h
  · exact Or.inr ⟨heq.symm, hlt⟩

/-! ## Claim C8 — feature vector order -/

/-- C8: for a validated and rainfall-filled reading, the feature vector is
exactly the 7 values in the fixed order
`[N, P, K, temperature, humidity, ph, rainfall]` (matching `FEATURE_ORDER`);
the moisture field is never part of the vector. -/
theorem feature_vector_order (d : SensorInput) (n p k t h phv r : ℚ)
    (hN : d.N = some (Value.num n)) (hP : d.P = some (Value.num p))
    (hK : d.K = some (Value.num k)) (hT : d.temperature = some (Value.num t))
    (hH : d.humidity = some (Value.num h)) (hPh : d.ph = some (Value.num phv))
    (hR : d.rainfall = some (Value.num r)) :
    featureVector d = some [n, p, k, t, h, phv, r] ∧
    FEATURE_ORDER.map (fun f => (d.get f).bind Value.toFloat) =
      [some n, some p, some k, some t, some h, some phv, some r] ∧
    ∀ v, featureVector { d with moisture := v } = featureVector d := by
  refine ⟨?_, ?_, ?_⟩
  · simp [featureVector, get_N, get_P, get_K, get_temperature, get_humidity,
      get_ph, get_rainfall, hN, hP, hK, hT, hH, hPh, hR, Value.toFloat]
  · simp [FEATURE_ORDER, get_N, get_P, get_K, get_temperature, get_humidity,
      get_ph, get_rainfall, hN, hP, hK, hT, hH, hPh, hR, Value.toFloat]
  · intro v
    simp [featureVector, get_N, get_P, get_K, get_temperature, get_humidity,
      get_ph, get_rainfall]

/-! ## Pipeline lemmas -/

/-- The rainfall fill-in touches no field other than rainfall. -/
theorem fillRainfall_preserves (api : Option ℚ) (d : SensorInput) :
    ((fillRainfall api d).1.N = d.N ∧ (fillRainfall api d).1.P = d.P ∧
     (fillRainfall api d).1.K = d.K ∧ (fillRainfall api d).1.ph = d.ph ∧
     (fillRainfall api d).1.moisture = d.moisture ∧
     (fillRainfall api d).1.temperature = d.temperature ∧
     (fillRainfall api d).1.humidity = d.humidity) := by
  cases hr : d.rainfall <;> simp [fillRainfall, hr]

/-- A reading that passes validation has numeric values in all seven required
fields. -/
theorem valid_fields (d : SensorInput) (hv : validate_input (some d) = []) :
    (∃ a, d.N = some (Value.num a)) ∧ (∃ a, d.P = some (Value.num a)) ∧
    (∃ a, d.K = some (Value.num a)) ∧ (∃ a, d.ph = some (Value.num a)) ∧
    (∃ a, d.moisture = some (Value.num a)) ∧
    (∃ a, d.temperature = some (Value.num a)) ∧
    (∃ a, d.humidity = some (Value.num a)) := by
  have hv' : REQUIRED_FIELDS.flatMap (validateField d) = [] := hv
  have h : ∀ f ∈ REQUIRED_FIELDS, ∃ x, d.get f = some (Value.num x) :=
    fun f hf => (validateField_eq_nil d f).mp (List.flatMap_eq_nil_iff.mp hv' f hf)
  refine ⟨h "N" ?_, h "P" ?_, h "K" ?_, h "ph" ?_, h "moisture" ?_,
    h "temperature" ?_, h "humidity" ?_⟩ <;> simp [REQUIRED_FIELDS]

/-- Core pipeline lemma: a validated request whose (possibly filled-in)
rainfall is numeric always reaches the 200 response, whose parts are the ones
computed by the embedded steps. -/
theorem recommend_crop_success_of_valid (m : Model) (api : Option ℚ)
    (d : SensorInput) (hv : validate_input (some d) = []) (q : ℚ)
    (hq : (fillRainfall api d).1.rainfall = some (Value.num q)) :
    ∃ w p fv,
      check_realistic_ranges (fillRainfall api d).1 = some (w, p) ∧
      featureVector (fillRainfall api d).1 = some fv ∧
      fv.getLast? = some q ∧
      recommend_crop m api (some d) = ApiResponse.success
        { recommendations := assembleRecommendations
            (m.predict_proba (m.transform fv)) m.classes p,
          warnings := responseWarnings w,
          metadata := { rainfall_source := (fillRainfall api d).2,
                        rainfall_value_used := q } } := by
  obtain ⟨⟨n, hN⟩, ⟨p, hP⟩, ⟨k, hK⟩, ⟨phv, hPh⟩, ⟨mo, hMo⟩, ⟨t, hT⟩, ⟨hu, hH⟩⟩ :=
    valid_fields d hv
  obtain ⟨pN, pP, pK, pPh, pMo, pT, pH⟩ := fillRainfall_preserves api d
  have hclean' : ∀ e ∈ REALISTIC_RANGES,
      ¬ presentNonNumeric (fillRainfall api d).1 e := by
    intro e he hnn
    obtain ⟨s, hs⟩ := hnn
    fin_cases he <;>
      simp_all [get_N, get_P, get_K, get_temperature, get_humidity, get_ph,
        get_rainfall, get_moisture]
  have hcheck := rangeLoop_eq_of_clean (fillRainfall api d).1 REALISTIC_RANGES
    hclean' [] 0
  have hfv : featureVector (fillRainfall api d).1 =
      some [n, p, k, t, hu, phv, q] := by
    simp [featureVector, get_N, get_P, get_K, get_temperature, get_humidity,
      get_ph, get_rainfall, pN, pP, pK, pT, pH, pPh, hN, hP, hK, hT, hH, hPh,
      hq, Value.toFloat]
  refine ⟨_, _, [n, p, k, t, hu, phv, q],
    by rw [check_realistic_ranges, hcheck]; rfl, hfv, rfl, ?_⟩
  rw [recommend_crop]
  simp only [hv, List.isEmpty_nil, if_true, Option.getD_some]
  rw [show check_realistic_ranges (fillRainfall api d).1 =
    some (([] : List String) ++
      (REALISTIC_RANGES.filter (violatesEntry (fillRainfall api d).1)).map
        (warningFor (fillRainfall api d).1),
      min (0 + ((REALISTIC_RANGES.filter
        (violatesEntry (fillRainfall api d).1)).length : ℚ) *
        CONFIDENCE_PENALTY_PER_WARNING) (1 / 2))
    from by rw [check_realistic_ranges, hcheck]; rfl]
  rw [hfv]
  rw [get_rainfall, hq]
  rfl

/-! ## Claim C5 — rainfall source metadata -/

/-- C5: for every request that passes validation: absent/null rainfall makes
the pipeline succeed with `rainfall_source = "estimated (fallback)"` and the
(always numeric) estimate both recorded in metadata and used as the feature
vector's last entry; caller-supplied numeric rainfall yields
`rainfall_source = "sensor"` with the supplied value used unchanged. -/
theorem rainfall_source_metadata (m : Model) (api : Option ℚ) (d : SensorInput)
    (hv : validate_input (some d) = []) :
    (d.rainfall = none →
      ∃ b fv, recommend_crop m api (some d) = ApiResponse.success b ∧
        b.metadata.rainfall_source = "estimated (fallback)" ∧
        b.metadata.rainfall_value_used = get_default_rainfall api ∧
        featureVector (fillRainfall api d).1 = some fv ∧
        fv.getLast? = some (get_default_rainfall api)) ∧
    (∀ q, d.rainfall = some (Value.num q) →
      ∃ b fv, recommend_crop m api (some d) = ApiResponse.success b ∧
        b.metadata.rainfall_source = "sensor" ∧
        b.metadata.rainfall_value_used = q ∧
        featureVector (fillRainfall api d).1 = some fv ∧
        fv.getLast? = some q) := by
  constructor
  · intro hr
    have hfill : fillRainfall api d =
        ({ d with rainfall := some (Value.num (get_default_rainfall api)) },
         "estimated (fallback)") := by
      rw [fillRainfall, hr]
    have hq : (fillRainfall api d).1.rainfall =
        some (Value.num (get_default_rainfall api)) := by rw [hfill]
    obtain ⟨w, p, fv, _, hf, hl, hresp⟩ :=
      recommend_crop_success_of_valid m api d hv _ hq
    exact ⟨_, fv, hresp, by rw [hfill], rfl, hf, hl⟩
  · intro q hr
    have hfill : fillRainfall api d = (d, "sensor") := by rw [fillRainfall, hr]
    have hq : (fillRainfall api d).1.rainfall = some (Value.num q) := by
      rw [hfill]; exact hr
    obtain ⟨w, p, fv, _, hf, hl, hresp⟩ :=
      recommend_crop_success_of_valid m api d hv q hq
    exact ⟨_, fv, hresp, by rw [hfill], rfl, hf, hl⟩

/-! ## Claim C10 — non-numeric optional rainfall gives a 500, not a 400 -/

/-- C10: a request whose seven required fields are valid but whose supplied
rainfall is not convertible to a number passes validation, makes the
`float(·)` inside `check_realistic_ranges` raise, and ends in the catch-all
500 response — never in a 400 validation error. -/
theorem nonNumeric_rainfall_yields_500 (m : Model) (api : Option ℚ)
    (d : SensorInput) (s : String) (hv : validate_input (some d) = [])
    (hr : d.rainfall = some (Value.nonNum s)) :
    recommend_crop m api (some d) =
      ApiResponse.unexpectedError UNEXPECTED_ERROR_MESSAGE ∧
    ∀ es, recommend_crop m api (some d) ≠ ApiResponse.validationError es := by
  have hfill : fillRainfall api d = (d, "sensor") := by rw [fillRainfall, hr]
  have hnn : check_realistic_ranges d = none := by
    rw [check_realistic_ranges,
      (rangeLoop_eq_none_iff d REALISTIC_RANGES [] 0).mpr
        ⟨("rainfall", 0, 500, "Rainfall"), by decide,
         s, by rw [get_rainfall]; exact hr⟩]
    rfl
  have hmain : recommend_crop m api (some d) =
      ApiResponse.unexpectedError UNEXPECTED_ERROR_MESSAGE := by
    rw [recommend_crop]
    simp only [hv, List.isEmpty_nil, if_true, Option.getD_some, hfill, hnn]
  exact ⟨hmain, fun es h => by rw [hmain] at h; cases h⟩

/-! ## Witnesses -/

/-- C1 witness: two violations (N = 300 above max, temperature = −20 below
min) give the penalty 0.20 = min(0.10 × 2, 0.50). -/
theorem check_realistic_ranges_penalty_witness :
    check_realistic_ranges outOfRangeReading =
      some (["Input Nitrogen (N) (300.0) is above the expected maximum (200).",
             "Input Temperature (-20.0) is below the expected minimum (-10)."],
            1 / 5) ∧
    (1 / 5 : ℚ) = min ((violationCount outOfRangeReading : ℚ) * (1 / 10)) (1 / 2) :=
  ⟨by with_unfolding_all rfl,
   check_realistic_ranges_penalty outOfRangeReading
     ["Input Nitrogen (N) (300.0) is above the expected maximum (200).",
      "Input Temperature (-20.0) is below the expected minimum (-10)."]
     (1 / 5) (by with_unfolding_all rfl)⟩

/-- C2 witness: a single class of probability 1 with no penalty is reported
as "100%". -/
theorem confidence_formula_witness :
    (⟨"rice", "100%"⟩ : Recommendation) ∈
      assembleRecommendations [(1 : ℚ)] ["rice"] 0 ∧
    ∃ i ∈ topIndices [(1 : ℚ)],
      (⟨"rice", "100%"⟩ : Recommendation) =
        mkRecommendation [(1 : ℚ)] ["rice"] 0 i ∧
      (⟨"rice", "100%"⟩ : Recommendation).confidence =
        fmtPct (max (List.getD [(1 : ℚ)] i 0 - 0) (1 / 100)) ∧
      (1 / 100 : ℚ) ≤ max (List.getD [(1 : ℚ)] i 0 - 0) (1 / 100) :=
  ⟨by with_unfolding_all exact List.Mem.head _,
   confidence_formula [(1 : ℚ)] ["rice"] 0 ⟨"rice", "100%"⟩
     (by with_unfolding_all exact List.Mem.head _)⟩

/-- C5 witness: the spec's success scenario (§8) — all fields in range,
rainfall omitted, weather API returning 80 mm. -/
theorem rainfall_source_metadata_witness :
    validate_input (some sampleReading) = [] ∧
    ((sampleReading.rainfall = none →
      ∃ b fv, recommend_crop sampleModel (some 80) (some sampleReading) =
          ApiResponse.success b ∧
        b.metadata.rainfall_source = "estimated (fallback)" ∧
        b.metadata.rainfall_value_used = get_default_rainfall (some 80) ∧
        featureVector (fillRainfall (some 80) sampleReading).1 = some fv ∧
        fv.getLast? = some (get_default_rainfall (some 80))) ∧
    (∀ q, sampleReading.rainfall = some (Value.num q) →
      ∃ b fv, recommend_crop sampleModel (some 80) (some sampleReading) =
          ApiResponse.success b ∧
        b.metadata.rainfall_source = "sensor" ∧
        b.metadata.rainfall_value_used = q ∧
        featureVector (fillRainfall (some 80) sampleReading).1 = some fv ∧
        fv.getLast? = some q)) :=
  ⟨by with_unfolding_all rfl,
   rainfall_source_metadata sampleModel (some 80) sampleReading
     (by with_unfolding_all rfl)⟩

/-- C8 witness: the sensor-supplied reading yields the feature vector
`[90, 42, 43, 25, 80, 6.5, 100]`. -/
theorem feature_vector_order_witness :
    sensorReading.N = some (Value.num 90) ∧
    sensorReading.P = some (Value.num 42) ∧
    sensorReading.K = some (Value.num 43) ∧
    sensorReading.temperature = some (Value.num 25) ∧
    sensorReading.humidity = some (Value.num 80) ∧
    sensorReading.ph = some (Value.num (13 / 2)) ∧
    sensorReading.rainfall = some (Value.num 100) ∧
    (featureVector sensorReading =
      some [90, 42, 43, 25, 80, 13 / 2, 100] ∧
    FEATURE_ORDER.map (fun f => (sensorReading.get f).bind Value.toFloat) =
      [some 90, some 42, some 43, some 25, some 80, some (13 / 2), some 100] ∧
    ∀ v, featureVector { sensorReading with moisture := v } =
      featureVector sensorReading) :=
  ⟨rfl, rfl, rfl, rfl, rfl, rfl, rfl,
   feature_vector_order sensorReading 90 42 43 25 80 (13 / 2) 100
     rfl rfl rfl rfl rfl rfl rfl⟩

/-- C9 witness: humidity = 150 produces exactly the above-maximum Humidity
warning, and a nonempty warning list is not reported as `null`. -/
theorem check_realistic_ranges_warnings_witness :
    check_realistic_ranges tooHumidReading =
      some (["Input Humidity (150.0) is above the expected maximum (100)."],
            1 / 10) ∧
    (["Input Humidity (150.0) is above the expected maximum (100)."] =
      (REALISTIC_RANGES.filter (violatesEntry tooHumidReading)).map
        (warningFor tooHumidReading) ∧
    (∀ e : RangeEntry, violatesEntry tooHumidReading e = true ↔
      ∃ x, tooHumidReading.get e.1 = some (Value.num x) ∧
        (x < (e.2.1 : ℚ) ∨ (e.2.2.1 : ℚ) < x)) ∧
    (∀ field low high label x,
      tooHumidReading.get field = some (Value.num x) →
      warningFor tooHumidReading (field, low, high, label) =
        if x < (low : ℚ) then belowWarning label x low
        else aboveWarning label x high) ∧
    (responseWarnings
        ["Input Humidity (150.0) is above the expected maximum (100)."] =
          none ↔
      ["Input Humidity (150.0) is above the expected maximum (100)."] = [])) :=
  ⟨by with_unfolding_all rfl,
   check_realistic_ranges_warnings tooHumidReading
     ["Input Humidity (150.0) is above the expected maximum (100)."]
     (1 / 10) (by with_unfolding_all rfl)⟩

/-- C10 witness: a valid reading with rainfall `"abc"` passes validation and
ends in the 500 catch-all. -/
theorem nonNumeric_rainfall_yields_500_witness :
    validate_input (some badRainfallReading) = [] ∧
    badRainfallReading.rainfall = some (Value.nonNum "'abc'") ∧
    (recommend_crop sampleModel (some 80) (some badRainfallReading) =
      ApiResponse.unexpectedError UNEXPECTED_ERROR_MESSAGE ∧
    ∀ es, recommend_crop sampleModel (some 80) (some badRainfallReading) ≠
      ApiResponse.validationError es) :=
  ⟨by with_unfolding_all rfl, rfl,
   nonNumeric_rainfall_yields_500 sampleModel (some 80) badRainfallReading
     "'abc'" (by with_unfolding_all rfl) rfl⟩

end AgriSense
